import Mathlib

/-!
Verification development for the OpenSBP post-processor
(`src/Mod/CAM/Path/Post/scripts/opensbp_post.py`).

The translator consumes a stream of structured g-code command records and
emits OpenSBP dialect text while threading a mutable state (axis positions,
speed registers, coordinate mode, active tool).  The Python module is
shallowly embedded here:

* numeric values are rationals (the Python floats are used on exact decimal
  inputs throughout the claims, so ideal arithmetic is faithful there);
* the accumulated output text is modelled as the list of emitted lines
  (every `txt += f"...\n"` in the source appends exactly one line);
* Python exceptions (`NotImplementedError`, `AttributeError`, `KeyError`)
  become an `Except Err` result;
* module globals (`Arguments`, `PRECISION`, `GetValue`, `FloatPrecision`,
  `UNDER_UNITTEST`) become a read-only `Config` value, and the mutable
  `CurrentState` dictionary becomes an explicit `MachineState` record that
  is threaded through every handler;
* external collaborators (the g-code text parser, the FreeCAD document
  model, the GUI editor and the file sink) are represented only at their
  interface boundary, exactly as the objects the core reads from them.
-/

namespace OpenSBP

/-- Python `int(x)` on a float/rational: truncation toward zero
(computed on the numerator and denominator so that it evaluates by kernel
reduction). -/
def pyInt (q : ℚ) : ℤ :=
  if q.num < 0 then -((q.num.natAbs / q.den : ℕ) : ℤ)
  else ((q.num.natAbs / q.den : ℕ) : ℤ)

/-- Pad a digit string on the left with zeros up to width `n`. -/
def padZeros (s : String) (n : ℕ) : String :=
  if s.length ≥ n then s else String.mk (List.replicate (n - s.length) '0') ++ s

/-- Round `n / d` to the nearest natural number, ties to even (the
rounding of Python's fixed-point float formatting, stated on the exact
rational value). -/
def roundHalfEvenDiv (n d : ℕ) : ℕ :=
  let q := n / d
  let r := n % d
  if 2 * r < d then q
  else if d < 2 * r then q + 1
  else if q % 2 = 0 then q else q + 1

/-- Python `format(x, '.{prec}f')`: fixed-point rendering of `|q|` with
`prec` decimal digits and the sign re-attached (for `prec = 0` just the
integer digits, as in Python). -/
def formatFixed (prec : ℕ) (q : ℚ) : String :=
  let n := roundHalfEvenDiv (q.num.natAbs * 10 ^ prec) q.den
  let intStr := toString (n / 10 ^ prec)
  let base :=
    if prec = 0 then intStr
    else intStr ++ "." ++ padZeros (toString (n % 10 ^ prec)) prec
  if q.num < 0 then "-" ++ base else base

/-- One structured command record (`Path.Command`): an operation name and a
mapping from single-letter parameter keys to numeric values.  Commands are
immutable; `toGCode` below derives the canonical raw text. -/
structure Command where
  name : String
  parameters : List (Char × ℚ)
deriving DecidableEq

/-- Parameter lookup, `command.Parameters[k]` / `k in command.Parameters`. -/
def Command.getParam (c : Command) (k : Char) : Option ℚ :=
  c.parameters.lookup k

/-- Canonical raw text of a command (`Path.Command.toGCode`), used only for
duplicate detection and diagnostics: the name followed by each parameter as
` {letter}{value}` with C-style `%f` (six-digit) rendering. -/
def toGCode (c : Command) : String :=
  c.name ++ String.join (c.parameters.map (fun kv => " " ++ String.mk [kv.1] ++ formatFixed 6 kv.2))

/-- The tool-controller collaborator, at its interface boundary: the object
label, the tool's display label (`obj.Tool.Label`), and the four rates
already expressed in mm/s (the source reads them via `getValueAs('mm/s')`).
-/
structure ToolController where
  Label : String
  ToolLabel : String
  HorizFeed : ℚ
  VertFeed : ℚ
  HorizRapid : ℚ
  VertRapid : ℚ
deriving DecidableEq

/-- The resolved option set: `Arguments` together with the derived globals
`PRECISION` (field `precision`), the unit-conversion selection `GetValue`
(field `inches`) and the unit-test guard `UNDER_UNITTEST` (field
`underUnittest`).  Preamble/postamble arrive already parsed by the external
`Path.Command.setFromGCode` collaborator; the native postamble is verbatim
lines.  Defaults follow the argparse declarations. -/
structure Config where
  header : Bool := true
  comments : Bool := false
  precision : ℕ := 3
  inches : Bool := false
  axis_modal : Bool := false
  modal : Bool := false
  ab_is_distance : Bool := false
  abort_on_unknown : Bool := true
  skip_unknown : List String := []
  toolchanger : Bool := false
  spindle_controller : Bool := false
  wait_for_spindle : ℤ := 3
  gcode_comments : Bool := false
  underUnittest : Bool := false
  preamble : Option (List Command) := none
  postamble : Option (List Command) := none
  native_postamble : Option (List String) := none
  return_to : Option (List (Option ℚ)) := none
  now : String := ""

/-- `GetValue`: divide by 25.4 in imperial mode, identity in metric. -/
def getValue (cfg : Config) (v : ℚ) : ℚ :=
  if cfg.inches then v / (254 / 10 : ℚ) else v

/-- The `CurrentState` dictionary.  Axis letters X,Y,Z,A,B start at 0;
C,U,V,W start as the "axis not available" sentinel `none`; the four speed
registers are keyed (rapid `JS` / feed `MS`) × (`XY` / `Z`).  The dict
entries `I`,`J`,`T`,`P` do not exist initially but `CurrentState.update`
can create them, hence `Option ℚ`. -/
structure MachineState where
  X : ℚ := 0
  Y : ℚ := 0
  Z : ℚ := 0
  A : ℚ := 0
  B : ℚ := 0
  C : Option ℚ := none
  U : Option ℚ := none
  V : Option ℚ := none
  W : Option ℚ := none
  F : ℚ := 0
  S : ℚ := 0
  JSXY : ℚ := 0
  JSZ : ℚ := 0
  MSXY : ℚ := 0
  MSZ : ℚ := 0
  Tool : Option ℤ := none
  ToolController : Option ToolController := none
  Absolute : Bool := true
  Operation : Option String := none
  IParam : Option ℚ := none
  JParam : Option ℚ := none
  TParam : Option ℚ := none
  PParam : Option ℚ := none
deriving DecidableEq

/-- The fresh state installed at the top of `export`. -/
def initState : MachineState := {}

/-- The Python exceptions the module can raise. -/
inductive Err where
  | notImplemented (msg : String)
  | attributeError (msg : String)
  | keyError (key : String)
deriving DecidableEq

/-- `ALLOWED_AXIS`: the axis letters the dialect supports. -/
def ALLOWED_AXIS : List Char := ['X', 'Y', 'Z', 'A', 'B']

/-- Reading `CurrentState[p]` for an axis letter (only ever evaluated for
members of `ALLOWED_AXIS`). -/
def axisVal (st : MachineState) (p : Char) : ℚ :=
  if p = 'X' then st.X
  else if p = 'Y' then st.Y
  else if p = 'Z' then st.Z
  else if p = 'A' then st.A
  else st.B

/-- Reading `CurrentState[speed_key]` for one of the four speed registers. -/
def getReg (st : MachineState) (key : String) : ℚ :=
  if key = "JSXY" then st.JSXY
  else if key = "JSZ" then st.JSZ
  else if key = "MSXY" then st.MSXY
  else st.MSZ

/-- Writing `CurrentState[speed_key] = v`. -/
def setReg (st : MachineState) (key : String) (v : ℚ) : MachineState :=
  if key = "JSXY" then { st with JSXY := v }
  else if key = "JSZ" then { st with JSZ := v }
  else if key = "MSXY" then { st with MSXY := v }
  else { st with MSZ := v }

/-- One assignment of `CurrentState.update(command.Parameters)`: store the
value under the parameter's key (creating the C/U/V/W/I/J/T/P entries that
hold an optional value).  Parameter letters that the state never reads are
dropped, since no later lookup can observe them. -/
def setKey (st : MachineState) (k : Char) (v : ℚ) : MachineState :=
  if k = 'X' then { st with X := v }
  else if k = 'Y' then { st with Y := v }
  else if k = 'Z' then { st with Z := v }
  else if k = 'A' then { st with A := v }
  else if k = 'B' then { st with B := v }
  else if k = 'C' then { st with C := some v }
  else if k = 'U' then { st with U := some v }
  else if k = 'V' then { st with V := some v }
  else if k = 'W' then { st with W := some v }
  else if k = 'F' then { st with F := v }
  else if k = 'S' then { st with S := v }
  else if k = 'I' then { st with IParam := some v }
  else if k = 'J' then { st with JParam := some v }
  else if k = 'T' then { st with TParam := some v }
  else if k = 'P' then { st with PParam := some v }
  else st

/-- `CurrentState.update(command.Parameters)`, performed by the dispatcher
after every successful handler call. -/
def updateParams (st : MachineState) (ps : List (Char × ℚ)) : MachineState :=
  ps.foldl (fun s kv => setKey s kv.1 kv.2) st

/-- The `comment()` helper: emits `'text` (parentheses kept) or `'text`
with the surrounding parentheses stripped (`command[1:-1]`), but only when
comment output is enabled or the comment is forced. -/
def comment (cfg : Config) (text : String) (keepparens : Bool := false)
    (force : Bool := false) : List String :=
  if cfg.comments || force then
    [if keepparens then "\'" ++ text else "\'" ++ ((text.drop 1).dropRight 1)]
  else []

/-- `gcodecomment()`: the original g-code appended as a trailing comment
when `--gcode-comments` debugging is on. -/
def gcodecomment (cfg : Config) (c : Command) : String :=
  if cfg.gcode_comments then " \'" ++ toGCode c else ""

/-- The `vs` slot list built by `set_speeds_before_tool_change`: six
comma-separated `VS` fields (XY feed, Z feed, A speed, B speed, XY rapid,
Z rapid).  The source fills the Z-feed slot under a test of `HorizFeed`
(not `VertFeed`), which is mirrored here verbatim. -/
def speedSlots (cfg : Config) (o : ToolController) : List String :=
  [ if o.HorizFeed ≠ 0 then formatFixed 4 (getValue cfg o.HorizFeed) else "",
    if o.HorizFeed ≠ 0 then formatFixed 4 (getValue cfg o.VertFeed) else "",
    "",
    "",
    if o.HorizRapid ≠ 0 then formatFixed 4 (getValue cfg o.HorizRapid) else "",
    if o.VertRapid ≠ 0 then formatFixed 4 (getValue cfg o.VertRapid) else "" ]

/-- The lines returned by `set_speeds_before_tool_change` for a known tool
controller: the per-missing-rate diagnostic comments interleave with the
slot construction, and the `VS` line is emitted when any rate was set. -/
def setSpeedsLines (cfg : Config) (o : ToolController) : List String :=
  comment cfg ("(set speeds: " ++ o.Label ++ ")") true
    ++ (if o.HorizFeed ≠ 0 then [] else comment cfg "(no HorizFeed)" true)
    ++ (if o.HorizFeed ≠ 0 then [] else comment cfg "(no VertFeed)" true)
    ++ (if o.HorizRapid ≠ 0 then [] else comment cfg "(no HorizRapid)" true)
    ++ (if o.VertRapid ≠ 0 then [] else comment cfg "(no VertRapid)" true)
    ++ (if o.HorizFeed ≠ 0 ∨ o.HorizRapid ≠ 0 ∨ o.VertRapid ≠ 0 then
          ["VS," ++ String.intercalate "," (speedSlots cfg o)]
        else [])

/-- `set_speeds_before_tool_change(obj)`.  With no tool controller the
guard `'UNDER_UNITTEST' in globals() and obj is None` returns the empty
text only under the unit-test flag; otherwise the subsequent `obj.Label`
access raises `AttributeError`. -/
def set_speeds_before_tool_change (cfg : Config) (obj : Option ToolController) :
    Except Err (List String) :=
  match obj with
  | none =>
    if cfg.underUnittest then .ok []
    else .error (.attributeError "NoneType object has no attribute Label")
  | some o => .ok (setSpeedsLines cfg o)

/-- The move-line prefix: `J` (jog) for the rapid codes, `M` for feed. -/
def movePre (c : Command) : String :=
  if c.name = "G0" ∨ c.name = "G00" then "J" else "M"

/-- The included-axis set of a move (built in source order X,Y,Z,A,B): with
axis-value elision off every axis letter present in the parameters is
included; with elision on, a letter is included only when (absolute mode
and the value differs from the tracked position) or (relative mode and the
value is nonzero). -/
def includedAxis (cfg : Config) (st : MachineState) (c : Command) : List Char :=
  ALLOWED_AXIS.foldl
    (fun axis p =>
      match c.getParam p with
      | none => axis
      | some v =>
        if cfg.axis_modal then
          if (st.Absolute = true ∧ v ≠ axisVal st p) ∨ (st.Absolute = false ∧ v ≠ 0)
          then axis ++ [p] else axis
        else axis ++ [p])
    []

/-- The "Handle speed change" section of `move()` is split below in source
order: when an `F` parameter is present, compare the converted speed
against the Z-group and then the XY-group register for the movement class,
update the registers that differ, and emit one
`{movetype},{xyspeed},{zspeed}` line when either token is non-empty.  (The
A/B case only prints a warning.)  Speed tokens use Python's bare `{:f}`,
i.e. six decimals.  This is the Z-group branch. -/
def moveSpeedZ (cfg : Config) (st : MachineState) (axis : List Char)
    (movetype : String) (speed : ℚ) : String × MachineState :=
  if axis.contains 'Z' then
    let speed_key := movetype ++ "Z"
    let speed_val := getValue cfg speed
    if getReg st speed_key ≠ speed_val then
      (formatFixed 6 speed_val, setReg st speed_key speed_val)
    else ("", st)
  else ("", st)

/-- The XY-group branch of the speed-change section, run after the Z
branch on its resulting state. -/
def moveSpeedXY (cfg : Config) (st : MachineState) (axis : List Char)
    (movetype : String) (speed : ℚ) : String × MachineState :=
  if axis.contains 'X' ∨ axis.contains 'Y' then
    let speed_key := movetype ++ "XY"
    let speed_val := getValue cfg speed
    if getReg st speed_key ≠ speed_val then
      (formatFixed 6 speed_val, setReg st speed_key speed_val)
    else ("", st)
  else ("", st)

/-- The whole speed-change section: both tokens, the register updates, and
the `{movetype},{xyspeed},{zspeed}` line when either token is non-empty. -/
def moveSpeed (cfg : Config) (st : MachineState) (c : Command) (axis : List Char) :
    List String × MachineState :=
  match c.getParam 'F' with
  | none => ([], st)
  | some speed =>
    let movetype := if c.name = "G1" ∨ c.name = "G01" then "MS" else "JS"
    let (zspeed, stZ) := moveSpeedZ cfg st axis movetype speed
    let (xyspeed, stXY) := moveSpeedXY cfg stZ axis movetype speed
    if zspeed ≠ "" ∨ xyspeed ≠ "" then
      ([movetype ++ "," ++ xyspeed ++ "," ++ zspeed ++ gcodecomment cfg c], stXY)
    else ([], stXY)

/-- The "Actual move" section of `move()`: pick the output format from the
included-axis set.  `none` stands for the branches that emit nothing (the
empty set's "skipping duplicate move" warning and the unsupported
combination error).  A and B values bypass unit conversion unless
`--ab-is-distance`.  Absent axes contribute nothing to the `3`/`5` forms:
in the source the conditional expression
`txt += "," + format(...) if key in axis else ''` binds as
`txt += (("," + format(...)) if key in axis else '')`, so the comma is
dropped together with the value. -/
def moveLineTxt (cfg : Config) (c : Command) (axis : List Char) : Option String :=
  let pref := movePre c
  let fmtLin : Char → String := fun k =>
    formatFixed cfg.precision (getValue cfg ((c.getParam k).getD 0))
  let fmtAB : Char → String := fun k =>
    if (k = 'A' ∨ k = 'B') ∧ cfg.ab_is_distance = false then
      formatFixed cfg.precision ((c.getParam k).getD 0)
    else fmtLin k
  match axis with
  | [k] => some (pref ++ String.mk [k] ++ "," ++ fmtAB k)
  | _ =>
    if axis = ['X', 'Y'] then
      some (pref ++ "2" ++ "," ++ fmtLin 'X' ++ "," ++ fmtLin 'Y')
    else if axis = ['X', 'Z'] ∨ axis = ['Y', 'Z'] ∨ axis = ['X', 'Y', 'Z'] then
      some (['X', 'Y', 'Z'].foldl
        (fun t k => t ++ (if axis.contains k then "," ++ fmtLin k else "")) (pref ++ "3"))
    else if (axis.contains 'A' ∨ axis.contains 'B') ∧ axis.length > 1
        ∧ (['C', 'U', 'V', 'W'].all (fun ch => !axis.contains ch)) then
      some (['X', 'Y', 'Z', 'A', 'B'].foldl
        (fun t k => t ++ (if axis.contains k then "," ++ fmtAB k else "")) (pref ++ "5"))
    else none

/-- `move(command)`: reject any C/U/V/W parameter outright (skipping even
the speed logic), otherwise emit the optional feed-rate line followed by
the optional move line with its trailing debug comment. -/
def move (cfg : Config) (st : MachineState) (c : Command) :
    List String × MachineState :=
  if ['C', 'U', 'V', 'W'].any (fun p => (c.getParam p).isSome) then ([], st)
  else
    let axis := includedAxis cfg st c
    let (speedOut, st1) := moveSpeed cfg st c axis
    match moveLineTxt cfg c axis with
    | some line => (speedOut ++ [line ++ gcodecomment cfg c], st1)
    | none => (speedOut, st1)

/-- The common handler shape: options, state and command in, emitted lines
and state out, or a raised exception. -/
abbrev Handler :=
  Config → MachineState → Command → Except Err (List String × MachineState)

/-- `move` as a dispatch-table entry (it never raises). -/
def moveH : Handler := fun cfg st c => .ok (move cfg st c)

/-- `arc(command)`: one `CG,,{X},{Y},{I},{J},T,{dir}` line, direction `1`
for `G2` and `-1` otherwise; the four parameters are required, a missing
one raising `KeyError`. -/
def arc : Handler := fun cfg st c =>
  let dirstring := if c.name = "G2" then "1" else "-1"
  let fmt : ℚ → String := fun v => formatFixed cfg.precision (getValue cfg v)
  match c.getParam 'X' with
  | none => .error (.keyError "X")
  | some x =>
    match c.getParam 'Y' with
    | none => .error (.keyError "Y")
    | some y =>
      match c.getParam 'I' with
      | none => .error (.keyError "I")
      | some i =>
        match c.getParam 'J' with
        | none => .error (.keyError "J")
        | some j =>
          .ok (["CG,," ++ fmt x ++ "," ++ fmt y ++ "," ++ fmt i ++ "," ++ fmt j
                  ++ ",T," ++ dirstring], st)

/-- The `re.sub(r'[^A-Za-z0-9/_ .-]', '', tool_name)` sanitisation. -/
def sanitizeToolName (s : String) : String :=
  String.mk (s.toList.filter
    (fun ch => ch.isAlpha || ch.isDigit || ch ∈ ['/', '_', ' ', '.', '-']))

/-- `tool_change(command)`: comment marker, `&Tool={n}`, then either the
automatic `C9` macro, or (manual) the first-tool informational comment with
no pause / the operator prompt plus `PAUSE` and an `active_tool` update;
then the sanitised `&ToolName="..."` and the speed-initialisation block. -/
def tool_change : Handler := fun cfg st c =>
  match c.getParam 'T' with
  | none => .error (.keyError "T")
  | some tRaw =>
    let tool_number : ℤ := pyInt tRaw
    let tool_name :=
      match st.ToolController with
      | some tc => tc.ToolLabel
      | none => toString tool_number
    let txt1 := comment cfg "(tool change)" true
      ++ ["&Tool=" ++ toString tool_number ++ gcodecomment cfg c]
    let txt2 :=
      if cfg.toolchanger then txt1 ++ ["C9 \'toolchanger"]
      else
        txt1 ++
          (if st.Tool = none then
            comment cfg ("(First change tool, should already be #"
              ++ toString tool_number ++ ": " ++ tool_name ++ ")") true
          else
            ["\'Change tool to #" ++ toString tool_number ++ ": " ++ tool_name,
             "PAUSE"])
    let st2 := if cfg.toolchanger then st else { st with Tool := some tool_number }
    let txt3 := txt2 ++ ["&ToolName=\"" ++ sanitizeToolName tool_name ++ "\""]
    match set_speeds_before_tool_change cfg st.ToolController with
    | .error e => .error e
    | .ok speeds => .ok (txt3 ++ speeds, st2)

/-- `spindle(command)`: `TR,{S}`, then the automatic spindle macro with its
optional timed pause, or the manual prompt with an unconditional pause. -/
def spindle : Handler := fun cfg st c =>
  match c.getParam 'S' with
  | none => .error (.keyError "S")
  | some sRaw =>
    let s := pyInt sRaw
    let txt := ["TR," ++ toString s]
    let txt :=
      if cfg.spindle_controller then
        txt ++ ["C6 \'spindle-controller"]
          ++ (if cfg.wait_for_spindle > 0 then
                ["PAUSE " ++ toString cfg.wait_for_spindle] else [])
      else
        txt ++ ["\'Change spindle speed to " ++ toString s, "PAUSE"]
    .ok (txt, st)

/-- `absolute_positions`: switch the mode register and emit `SA`. -/
def absolute_positions : Handler := fun cfg st _ =>
  .ok (comment cfg "Absolute Positions" true ++ ["SA \'ABSOLUTE"],
       { st with Absolute := true })

/-- `relative_positions`: switch the mode register and emit `SR`. -/
def relative_positions : Handler := fun cfg st _ =>
  .ok (comment cfg "Relative Positions" true ++ ["SR \'RELATIVE"],
       { st with Absolute := false })

/-- `coordinate_system(command)`: resolve the requested offset index; index
1 (`G54`) emits only an explanatory comment, anything else only logs a
warning.  Only `G54` is reachable from the dispatch table. -/
def coordinate_system : Handler := fun cfg st c =>
  let gpart := c.name
  let which : ℤ :=
    if gpart = "G54.1" then pyInt ((c.getParam 'P').getD 0)
    else if gpart = "G54" then 1
    else if gpart = "G55" then 2
    else if gpart = "G56" then 3
    else if gpart = "G57" then 4
    else if gpart = "G58" then 5
    else if gpart = "G59" then
      match c.getParam 'P' with
      | some p => pyInt p
      | none => 6
    else if gpart = "G59.1" then 7
    else if gpart = "G59.2" then 8
    else if gpart = "G59.3" then 9
    else 0
  if which ≠ 1 then .ok ([], st)
  else .ok (comment cfg ("G54 has no effect" ++ gcodecomment cfg c) true, st)

/-- The `comment` dispatch entry: a g-code comment command is emitted via
`comment()` with its surrounding parentheses stripped. -/
def commentH : Handler := fun cfg st c =>
  .ok (comment cfg c.name false false, st)

/-- The `scommands` dispatch table as a name-to-handler map. -/
def lookupHandler (name : String) : Option Handler :=
  if name = "G0" then some moveH
  else if name = "G1" then some moveH
  else if name = "G2" then some arc
  else if name = "G3" then some arc
  else if name = "M6" then some tool_change
  else if name = "M3" then some spindle
  else if name = "G00" then some moveH
  else if name = "G01" then some moveH
  else if name = "G02" then some arc
  else if name = "G03" then some arc
  else if name = "M06" then some tool_change
  else if name = "M03" then some spindle
  else if name = "G91" then some relative_positions
  else if name = "G90" then some absolute_positions
  else if name = "G54" then some coordinate_system
  else if name = "comment" then some commentH
  else none

/-- The comment-prefix convention: a name starting with `(` dispatches to
the `comment` entry (`command.startswith("(")`, stated on the character
list so that it evaluates by kernel reduction). -/
def dispatchName (c : Command) : String :=
  if c.name.data.head? = some '(' then "comment" else c.name

/-- Does a command carry any X/Y/Z/A/B parameter
(`set(ALLOWED_AXIS) & set(c.Parameters.keys())` non-empty)? -/
def hasMotionParam (c : Command) : Bool :=
  c.parameters.any (fun kv => ALLOWED_AXIS.contains kv.1)

/-- The loop state of one `parse_list_of_commands` call: the lines emitted
so far, the machine state, and `last_gcode` (reset to the empty string at
each call). -/
structure RunAcc where
  output : List String
  st : MachineState
  last_gcode : String
deriving DecidableEq

/-- The non-elided path of the dispatcher loop body: record the raw text in
`last_gcode`, run the handler, then fold every parameter of the command
into the state (`CurrentState.update(c.Parameters)`). -/
def handleKnown (cfg : Config) (fn : Handler) (acc : RunAcc) (c : Command) :
    Except Err RunAcc :=
  match fn cfg acc.st c with
  | .error e => .error e
  | .ok (out, st2) =>
    .ok { output := acc.output ++ out,
          st := updateParams st2 c.parameters,
          last_gcode := toGCode c }

/-- One iteration of the `parse_list_of_commands` loop: dispatch by name;
with `--modal`, a command whose raw text equals `last_gcode` is skipped
entirely when it is a non-motion command or a motion command in absolute
mode (a repeated relative motion falls through to the handler); an empty
name is skipped; an unknown name either raises `NotImplementedError` or
degrades to a forced comment. -/
def processOne (cfg : Config) (acc : RunAcc) (c : Command) : Except Err RunAcc :=
  let command := dispatchName c
  match lookupHandler command with
  | some fn =>
    if cfg.modal = true ∧ toGCode c = acc.last_gcode
        ∧ (hasMotionParam c = false ∨ acc.st.Absolute = true) then
      .ok acc
    else handleKnown cfg fn acc c
  | none =>
    if command = "" then .ok acc
    else
      let opname := acc.st.Operation.getD ""
      if cfg.abort_on_unknown = true ∧ command ∉ cfg.skip_unknown then
        .error (.notImplemented
          ("gcode not handled in operation " ++ opname ++ ": " ++ toGCode c))
      else
        .ok { acc with output := acc.output
                ++ ["\'not handled: " ++ toGCode c] }

/-- The `parse_list_of_commands` loop over the remaining commands. -/
def parse_list_go (cfg : Config) (acc : RunAcc) : List Command → Except Err RunAcc
  | [] => .ok acc
  | c :: rest =>
    match processOne cfg acc c with
    | .error e => .error e
    | .ok acc2 => parse_list_go cfg acc2 rest

/-- `parse_list_of_commands(commands)`: run the loop with fresh local
`output` and `last_gcode`, returning the emitted lines and the state. -/
def parse_list_of_commands (cfg : Config) (st : MachineState)
    (cmds : List Command) : Except Err (List String × MachineState) :=
  match parse_list_go cfg { output := [], st := st, last_gcode := "" } cmds with
  | .error e => .error e
  | .ok r => .ok (r.output, r.st)

/-- A postable input item at the interface boundary: either a compound
(exposes a `Group` of children) or a simple object with a label, a `Path`
attribute flag, optionally a tool-controller proxy, optionally an
operation proxy, and its (already placement-resolved) command list. -/
inductive PObj where
  | compound (label : String) (hasPath : Bool) (children : List PObj)
  | leaf (label : String) (hasPath : Bool) (tc : Option ToolController)
      (isOp : Bool) (commands : List Command)

/-- The object's `Label`. -/
def pLabel : PObj → String
  | .compound l _ _ => l
  | .leaf l _ _ _ _ => l

/-- `hasattr(obj, "Path")`. -/
def pHasPath : PObj → Bool
  | .compound _ h _ => h
  | .leaf _ h _ _ _ => h

mutual

/-- `parse(pathobj)`: compounds emit a marker comment and recurse over
their group; simple objects without a `Path` contribute nothing; path
objects emit a marker comment and translate their command list. -/
def parse (cfg : Config) (st : MachineState) : PObj → Except Err (List String × MachineState)
  | .compound l _ children =>
    match parseGroup cfg st children with
    | .error e => .error e
    | .ok (out, st2) =>
      .ok (comment cfg ("(compound: " ++ l ++ ")") true ++ out, st2)
  | .leaf l hasPath _ _ cmds =>
    if hasPath then
      match parse_list_of_commands cfg st cmds with
      | .error e => .error e
      | .ok (out, st2) =>
        .ok (comment cfg ("(Path: " ++ l ++ ")") true ++ out, st2)
    else .ok ([], st)

/-- The recursion of `parse` over a compound's `Group`. -/
def parseGroup (cfg : Config) (st : MachineState) : List PObj → Except Err (List String × MachineState)
  | [] => .ok ([], st)
  | o :: os =>
    match parse cfg st o with
    | .error e => .error e
    | .ok (out, st2) =>
      match parseGroup cfg st2 os with
      | .error e => .error e
      | .ok (out2, st3) => .ok (out ++ out2, st3)

end

/-- The per-object body of the `export` loop: remember a tool-controller
object and an operation object in the state, then bracket `parse` with the
begin/finish operation comments. -/
def exportObjs (cfg : Config) : MachineState → List PObj → Except Err (List String × MachineState)
  | st, [] => .ok ([], st)
  | st, o :: os =>
    let stA :=
      match o with
      | .leaf _ _ (some tc) _ _ => { st with ToolController := some tc }
      | _ => st
    let stB :=
      match o with
      | .leaf l _ _ true _ => { stA with Operation := some l }
      | _ => stA
    match parse cfg stB o with
    | .error e => .error e
    | .ok (out, st2) =>
      match exportObjs cfg st2 os with
      | .error e => .error e
      | .ok (out2, st3) =>
        .ok (comment cfg ("(begin operation: " ++ pLabel o ++ ")") true
              ++ out
              ++ comment cfg ("(finish operation: " ++ pLabel o ++ ")") true
              ++ out2,
             st3)

/-- Concatenate emitted lines back into the output text (every line in the
source is newline-terminated). -/
def renderLines (ls : List String) : String :=
  String.join (ls.map (fun l => l ++ "\n"))

/-- The synthetic `--return-to` rapid move: positional X,Y,Z,A,B values,
empty components meaning "do not move this axis" (the numeric parsing of
the raw option text happens before this point; a malformed value would
abort only this step). -/
def returnToCommand (fields : List (Option ℚ)) : Command :=
  { name := "G0",
    parameters := fields.enum.filterMap
      (fun iv => iv.2.map (fun v => (ALLOWED_AXIS.getD iv.1 'X', v))) }

/-- `export(objectslist, filename, argstring)` after argument processing,
up to the external editor dialog and file sink: validate that every item
exposes a `Path` (otherwise return the empty text), then emit header,
preamble, the per-object translations, the return-to move, the postamble
and the verbatim native postamble. -/
def exportRun (cfg : Config) (objs : List PObj) : Except Err String :=
  if objs.any (fun o => !(pHasPath o)) then .ok ""
  else
    let headerOut :=
      if cfg.header then
        ["\'Exported by FreeCAD",
         "\'Post Processor: Path.Post.scripts.opensbp_post",
         "\'Output Time:" ++ cfg.now]
      else []
    match (match cfg.preamble with
           | none => Except.ok ([], initState)
           | some cmds =>
             match parse_list_of_commands cfg initState cmds with
             | .error e => .error e
             | .ok (out, st) =>
               .ok (comment cfg "(begin preamble)" true ++ out, st)) with
    | .error e => .error e
    | .ok (preOut, st1) =>
      match exportObjs cfg st1 objs with
      | .error e => .error e
      | .ok (opsOut, st2) =>
        match (match cfg.return_to with
               | none => Except.ok ([], st2)
               | some fields =>
                 match parse_list_of_commands cfg st2 [returnToCommand fields] with
                 | .error e => .error e
                 | .ok (out, st3) =>
                   .ok (comment cfg "(return-to)" true ++ out, st3)) with
        | .error e => .error e
        | .ok (rtOut, st3) =>
          match (match cfg.postamble with
                 | none => Except.ok ([], st3)
                 | some cmds =>
                   match parse_list_of_commands cfg st3 cmds with
                   | .error e => .error e
                   | .ok (out, st4) =>
                     .ok (comment cfg "(begin postamble)" true ++ out, st4)) with
          | .error e => .error e
          | .ok (postOut, _) =>
            let natOut := (cfg.native_postamble).getD []
            .ok (renderLines (headerOut ++ preOut ++ opsOut ++ rtOut ++ postOut ++ natOut))

/-- The contribution of one optionally-present linear axis to a multi-axis
move line: `,{converted value}` when present, nothing when absent. -/
def optSlot (cfg : Config) (o : Option ℚ) : String :=
  match o with
  | some v => "," ++ formatFixed cfg.precision (getValue cfg v)
  | none => ""

/-- The contribution of one optionally-present A/B axis to a five-slot
move line: the value bypasses unit conversion unless `--ab-is-distance`. -/
def optSlotAB (cfg : Config) (o : Option ℚ) : String :=
  match o with
  | some v =>
    "," ++ (if cfg.ab_is_distance = false then formatFixed cfg.precision v
            else formatFixed cfg.precision (getValue cfg v))
  | none => ""

/-- C/U/V/W are still the "axis not available" sentinel. -/
def cuvwAbsent (st : MachineState) : Prop :=
  st.C = none ∧ st.U = none ∧ st.V = none ∧ st.W = none

/-- Metric run at explicit precision 4 (`--metric --precision=4`). -/
def cfgP4 : Config := { precision := 4 }

/-- Default metric run with duplicate-command elision (`--modal`). -/
def cfgModal : Config := { modal := true }

/-- Default metric run with axis-value elision (`--axis-modal`). -/
def cfgAxisModal : Config := { axis_modal := true }

/-- Comment emission on (`--comments`). -/
def cfgComments : Config := { comments := true }

/-- `rapid-move(X=10, Y=20, Z=30)`. -/
def cmdXYZ : Command := { name := "G0", parameters := [('X', 10), ('Y', 20), ('Z', 30)] }

/-- `rapid-move(Y=20, Z=30)` — Z present, X absent. -/
def cmdYZ : Command := { name := "G0", parameters := [('Y', 20), ('Z', 30)] }

/-- `feed-move(X=10, Y=20, Z=30, A=40, B=50)`. -/
def cmdXYZAB : Command :=
  { name := "G1", parameters := [('X', 10), ('Y', 20), ('Z', 30), ('A', 40), ('B', 50)] }

/-- `feed-move(X=10, A=40)` — A present, Y/Z/B absent. -/
def cmdXA : Command := { name := "G1", parameters := [('X', 10), ('A', 40)] }

/-- The switch to relative mode. -/
def cmdG91 : Command := { name := "G91", parameters := [] }

/-- An unknown command. -/
def cmdG55 : Command := { name := "G55", parameters := [] }

/-- A rapid move carrying only an unsupported `C` axis parameter. -/
def cmdC5 : Command := { name := "G0", parameters := [('C', 5)] }

/-- `tool-change(T=2)`. -/
def cmdT2 : Command := { name := "M6", parameters := [('T', 2)] }

/-- A feed move repeating the current position, with a speed parameter. -/
def cmdMoveStay : Command :=
  { name := "G1", parameters := [('X', 10), ('Y', 20), ('Z', 30), ('F', 1000)] }

/-- A machine state already at X=10, Y=20, Z=30. -/
def stPos : MachineState := { X := 10, Y := 20, Z := 30 }

/-- A tool controller with all four rates set. -/
def tcW : ToolController :=
  { Label := "TC1", ToolLabel := "6mm End Mill",
    HorizFeed := 10, VertFeed := 5, HorizRapid := 40, VertRapid := 20 }

/-- A tool controller with zero horizontal feed but nonzero vertical feed. -/
def tcZeroHF : ToolController :=
  { Label := "TC2", ToolLabel := "Probe",
    HorizFeed := 0, VertFeed := 5, HorizRapid := 7, VertRapid := 0 }

/-- A state that has seen the tool controller but no tool change yet. -/
def stTC : MachineState := { ToolController := some tcW }

/-- A state with the tool controller and an already-active tool. -/
def stTCTool : MachineState := { ToolController := some tcW, Tool := some 2 }

/-- A dispatcher accumulator inside an operation labelled `Op1`. -/
def accOp1 : RunAcc :=
  { output := [], st := { Operation := some "Op1" }, last_gcode := "" }

/-- A postable item that does not expose a `Path` attribute. -/
def objNoPath : PObj := .leaf "stock" false none false []

/-- C1, corrected part (counterexample to the claim as stated): the
rapid move `Y=20, Z=30` in metric at precision 4 without elision emits
`J3,20.0000,30.0000` — the X slot's comma is dropped together with the
value, not kept around a blank slot as the claim's `J3,,20.0000,30.0000`
would have it. -/
theorem C1_counterexample :
    (move cfgP4 initState cmdYZ).1 = ["J3,20.0000,30.0000"]
    ∧ ["J3,20.0000,30.0000"] ≠ ["J3,,20.0000,30.0000"] := by
  constructor
  · rfl
  · decide

/-- C1, amended: for a rapid/feed move whose parameter set is a subset of
{X,Y,Z} containing Z with more than one letter (elision off, no speed
parameter), the Move Emitter outputs one line `{prefix}3` followed by a
`,{value}` pair for each included axis in X,Y,Z order; the comma-and-value
pair of an absent axis is omitted entirely (no blank slot is kept). -/
theorem C1_move_z_format (cfg : Config) (st : MachineState) (c : Command)
    (ox oy : Option ℚ) (z : ℚ)
    (hmodal : cfg.axis_modal = false)
    (_hname : c.name = "G0" ∨ c.name = "G00" ∨ c.name = "G1" ∨ c.name = "G01")
    (hX : c.getParam 'X' = ox) (hY : c.getParam 'Y' = oy)
    (hZ : c.getParam 'Z' = some z)
    (hA : c.getParam 'A' = none) (hB : c.getParam 'B' = none)
    (hC : c.getParam 'C' = none) (hU : c.getParam 'U' = none)
    (hV : c.getParam 'V' = none) (hW : c.getParam 'W' = none)
    (hF : c.getParam 'F' = none)
    (hmulti : ox.isSome ∨ oy.isSome) :
    move cfg st c =
      ([movePre c ++ "3" ++ optSlot cfg ox ++ optSlot cfg oy
          ++ optSlot cfg (some z) ++ gcodecomment cfg c], st) := by
  rcases ox with _ | x <;> rcases oy with _ | y
  · simp at hmulti
  all_goals
    simp_all [move, includedAxis, ALLOWED_AXIS, moveSpeed, moveLineTxt,
      optSlot, String.append_assoc]

/-- C1 witness: the claim's own scenario, `rapid-move(X=10,Y=20,Z=30)` in
metric at precision 4 without elision, yields `J3,10.0000,20.0000,30.0000`. -/
theorem C1_witness :
    move cfgP4 initState cmdXYZ = (["J3,10.0000,20.0000,30.0000"], initState) := by
  have h := C1_move_z_format cfgP4 initState cmdXYZ (some 10) (some 20) 30
    rfl (Or.inl rfl) rfl rfl rfl rfl rfl rfl rfl rfl rfl rfl (Or.inl rfl)
  rw [h]
  rfl

/-- C2, corrected part (counterexample to the claim as stated): the feed
move `X=10, A=40` (A/B-as-distance off, metric, precision 4) emits
`M5,10.0000,40.0000` — the Y, Z and B slots vanish together with their
commas rather than staying as blank comma-separated slots. -/
theorem C2_counterexample :
    (move cfgP4 initState cmdXA).1 = ["M5,10.0000,40.0000"]
    ∧ ["M5,10.0000,40.0000"] ≠ ["M5,10.0000,,,40.0000,"] := by
  constructor
  · rfl
  · decide

/-- C2, amended: a move whose included set contains A or B and more than
one letter uses the `{prefix}5` form with value fields in X,Y,Z,A,B order,
where an absent axis contributes nothing (comma dropped, no blank slot);
A and B are rendered without unit conversion when the A/B-as-distance flag
is off, and converted like the linear axes when it is on. -/
theorem C2_move_ab_format (cfg : Config) (st : MachineState) (c : Command)
    (ox oy oz oa ob : Option ℚ)
    (hmodal : cfg.axis_modal = false)
    (_hname : c.name = "G0" ∨ c.name = "G00" ∨ c.name = "G1" ∨ c.name = "G01")
    (hX : c.getParam 'X' = ox) (hY : c.getParam 'Y' = oy)
    (hZ : c.getParam 'Z' = oz)
    (hA : c.getParam 'A' = oa) (hB : c.getParam 'B' = ob)
    (hC : c.getParam 'C' = none) (hU : c.getParam 'U' = none)
    (hV : c.getParam 'V' = none) (hW : c.getParam 'W' = none)
    (hF : c.getParam 'F' = none)
    (hab : oa.isSome ∨ ob.isSome)
    (hlen : ox.isSome ∨ oy.isSome ∨ oz.isSome ∨ (oa.isSome ∧ ob.isSome)) :
    move cfg st c =
      ([movePre c ++ "5" ++ optSlot cfg ox ++ optSlot cfg oy ++ optSlot cfg oz
          ++ optSlotAB cfg oa ++ optSlotAB cfg ob
          ++ gcodecomment cfg c], st) := by
  rcases ox with _ | x <;> rcases oy with _ | y <;> rcases oz with _ | z <;>
    rcases oa with _ | a <;> rcases ob with _ | b <;>
    simp_all [move, includedAxis, ALLOWED_AXIS, moveSpeed, moveLineTxt,
      optSlot, optSlotAB, String.append_assoc]

/-- C2 witness: the claim's own scenario,
`feed-move(X=10,Y=20,Z=30,A=40,B=50)` with A/B-as-distance disabled,
yields `M5,10.0000,20.0000,30.0000,40.0000,50.0000`. -/
theorem C2_witness :
    move cfgP4 initState cmdXYZAB =
      (["M5,10.0000,20.0000,30.0000,40.0000,50.0000"], initState) := by
  have h := C2_move_ab_format cfgP4 initState cmdXYZAB
    (some 10) (some 20) (some 30) (some 40) (some 50)
    rfl (Or.inr (Or.inr (Or.inl rfl))) rfl rfl rfl rfl rfl rfl rfl rfl rfl rfl
    (Or.inl rfl) (Or.inl rfl)
  rw [h]
  rfl

/-- C3: with duplicate-command elision on, a dispatchable command whose
raw text equals the last handled command's raw text is skipped entirely
(accumulator returned untouched) exactly when it is a non-motion command
or a motion command in absolute mode, while a duplicated motion command in
relative mode takes the normal handling path; concretely, the same
absolute move twice yields one move line, and the same move twice after a
switch to relative yields two. -/
theorem C3_duplicate_elision (cfg : Config) (acc : RunAcc) (c : Command)
    (fn : Handler)
    (hfn : lookupHandler (dispatchName c) = some fn)
    (hmodal : cfg.modal = true)
    (hdup : toGCode c = acc.last_gcode) :
    ((hasMotionParam c = false ∨ acc.st.Absolute = true) →
      processOne cfg acc c = .ok acc)
    ∧ (hasMotionParam c = true → acc.st.Absolute = false →
      processOne cfg acc c = handleKnown cfg fn acc c)
    ∧ (parse_list_of_commands cfgModal initState [cmdXYZ, cmdXYZ]).map Prod.fst
        = .ok ["J3,10.000,20.000,30.000"]
    ∧ (parse_list_of_commands cfgModal initState [cmdG91, cmdXYZ, cmdXYZ]).map Prod.fst
        = .ok ["SR \'RELATIVE", "J3,10.000,20.000,30.000", "J3,10.000,20.000,30.000"] := by
  refine ⟨?_, ?_, ?_, ?_⟩
  · intro h
    simp [processOne, hfn, hmodal, hdup, h]
  · intro hmot habs
    simp [processOne, hfn, hmodal, hdup, hmot, habs]
  · rfl
  · rfl

/-- C3 witness: a concrete duplicated absolute move is skipped with the
accumulator unchanged. -/
theorem C3_witness :
    processOne cfgModal
      { output := ["J3,10.000,20.000,30.000"], st := stPos, last_gcode := toGCode cmdXYZ }
      cmdXYZ
    = .ok { output := ["J3,10.000,20.000,30.000"], st := stPos, last_gcode := toGCode cmdXYZ } := by
  exact (C3_duplicate_elision cfgModal
      { output := ["J3,10.000,20.000,30.000"], st := stPos, last_gcode := toGCode cmdXYZ }
      cmdXYZ moveH rfl rfl rfl).1 (Or.inr rfl)

/-- C4: a non-empty command name matching neither the dispatch table nor
the comment-prefix convention raises `NotImplementedError` naming the
command text and the active operation's label when abort-on-unknown is on
and the name is not exempted; otherwise the dispatcher appends a forced
comment recording the unhandled text and continues with the state intact. -/
theorem C4_unknown_command (cfg : Config) (acc : RunAcc) (c : Command)
    (hlook : lookupHandler c.name = none)
    (hparen : c.name.data.head? ≠ some '(')
    (_hne : c.name ≠ "") :
    (cfg.abort_on_unknown = true → c.name ∉ cfg.skip_unknown →
      processOne cfg acc c = .error (.notImplemented
        ("gcode not handled in operation " ++ acc.st.Operation.getD ""
          ++ ": " ++ toGCode c)))
    ∧ ((cfg.abort_on_unknown = false ∨ c.name ∈ cfg.skip_unknown) →
      processOne cfg acc c =
        .ok { acc with output := acc.output ++ ["\'not handled: " ++ toGCode c] }) := by
  have hdn : dispatchName c = c.name := by simp [dispatchName, hparen]
  constructor
  · intro habort hskip
    simp [processOne, hdn, hlook, habort, hskip, _hne]
  · intro h
    rcases h with h | h
    · simp [processOne, hdn, hlook, h, _hne]
    · simp [processOne, hdn, hlook, h, _hne]

/-- C4 witness: the unknown command `G55` inside operation `Op1` with
abort-on-unknown enabled (and `G55` not exempted) fails with an error
naming both. -/
theorem C4_witness :
    processOne { } accOp1 cmdG55
      = .error (.notImplemented "gcode not handled in operation Op1: G55") := by
  have h := (C4_unknown_command { } accOp1 cmdG55 rfl (by decide) (by decide)).1 rfl
    (by decide)
  rw [h]
  rfl

/-- A key whose lookup misses is not among the stored keys. -/
theorem lookup_none_mem {ps : List (Char × ℚ)} {k : Char}
    (h : ps.lookup k = none) : ∀ kv ∈ ps, kv.1 ≠ k := by
  induction ps with
  | nil => simp
  | cons hd tl ih =>
    intro kv hkv
    rcases List.mem_cons.mp hkv with hkv | hkv
    · subst hkv
      intro hk
      subst hk
      simp [List.lookup] at h
    · rcases hb : (k == hd.1) with _ | _
      · exact ih (by simpa [List.lookup, hb] using h) kv hkv
      · simp [List.lookup, hb] at h

/-- Extract the state component from a successful handler result. -/
theorem handlerStateEq {A out : List String} {B st2 : MachineState}
    (h : (Except.ok (A, B) : Except Err (List String × MachineState)) = .ok (out, st2)) :
    st2 = B := by
  injection h with h
  injection h with h1 h2
  exact h2.symm

/-- `setReg` only touches the four speed registers. -/
theorem setReg_cuvw (st : MachineState) (key : String) (v : ℚ) :
    (setReg st key v).C = st.C ∧ (setReg st key v).U = st.U
    ∧ (setReg st key v).V = st.V ∧ (setReg st key v).W = st.W := by
  unfold setReg
  split_ifs <;> exact ⟨rfl, rfl, rfl, rfl⟩

set_option maxHeartbeats 1000000 in
/-- `setKey` leaves the C/U/V/W entries alone for any other key. -/
theorem setKey_cuvw (st : MachineState) (k : Char) (v : ℚ)
    (h : k ∉ (['C', 'U', 'V', 'W'] : List Char)) :
    (setKey st k v).C = st.C ∧ (setKey st k v).U = st.U
    ∧ (setKey st k v).V = st.V ∧ (setKey st k v).W = st.W := by
  simp only [List.mem_cons, List.not_mem_nil, or_false, not_or] at h
  obtain ⟨hC, hU, hV, hW⟩ := h
  by_cases h1 : k = 'X'
  · subst h1; exact ⟨rfl, rfl, rfl, rfl⟩
  by_cases h2 : k = 'Y'
  · subst h2; exact ⟨rfl, rfl, rfl, rfl⟩
  by_cases h3 : k = 'Z'
  · subst h3; exact ⟨rfl, rfl, rfl, rfl⟩
  by_cases h4 : k = 'A'
  · subst h4; exact ⟨rfl, rfl, rfl, rfl⟩
  by_cases h5 : k = 'B'
  · subst h5; exact ⟨rfl, rfl, rfl, rfl⟩
  by_cases h6 : k = 'F'
  · subst h6; exact ⟨rfl, rfl, rfl, rfl⟩
  by_cases h7 : k = 'S'
  · subst h7; exact ⟨rfl, rfl, rfl, rfl⟩
  by_cases h8 : k = 'I'
  · subst h8; exact ⟨rfl, rfl, rfl, rfl⟩
  by_cases h9 : k = 'J'
  · subst h9; exact ⟨rfl, rfl, rfl, rfl⟩
  by_cases h10 : k = 'T'
  · subst h10; exact ⟨rfl, rfl, rfl, rfl⟩
  by_cases h11 : k = 'P'
  · subst h11; exact ⟨rfl, rfl, rfl, rfl⟩
  simp [setKey, hC, hU, hV, hW, h1, h2, h3, h4, h5, h6, h7, h8, h9, h10, h11]

/-- The dispatcher's parameter fold leaves C/U/V/W alone when the command
carries none of those letters. -/
theorem updateParams_cuvw (ps : List (Char × ℚ)) (st : MachineState)
    (h : ∀ kv ∈ ps, kv.1 ∉ (['C', 'U', 'V', 'W'] : List Char)) :
    (updateParams st ps).C = st.C ∧ (updateParams st ps).U = st.U
    ∧ (updateParams st ps).V = st.V ∧ (updateParams st ps).W = st.W := by
  induction ps generalizing st with
  | nil => exact ⟨rfl, rfl, rfl, rfl⟩
  | cons hd tl ih =>
    have h1 := setKey_cuvw st hd.1 hd.2 (h hd (by simp))
    have h2 := ih (setKey st hd.1 hd.2) (fun kv hkv => h kv (by simp [hkv]))
    unfold updateParams at h2 ⊢
    simp only [List.foldl_cons]
    exact ⟨h2.1.trans h1.1, h2.2.1.trans h1.2.1,
      h2.2.2.1.trans h1.2.2.1, h2.2.2.2.trans h1.2.2.2⟩

/-- The Z-group speed branch only touches the speed registers. -/
theorem moveSpeedZ_cuvw (cfg : Config) (st : MachineState) (axis : List Char)
    (movetype : String) (speed : ℚ) :
    ((moveSpeedZ cfg st axis movetype speed).2).C = st.C
    ∧ ((moveSpeedZ cfg st axis movetype speed).2).U = st.U
    ∧ ((moveSpeedZ cfg st axis movetype speed).2).V = st.V
    ∧ ((moveSpeedZ cfg st axis movetype speed).2).W = st.W := by
  unfold moveSpeedZ
  dsimp only
  split_ifs <;> first | exact setReg_cuvw st _ _ | exact ⟨rfl, rfl, rfl, rfl⟩

/-- The XY-group speed branch only touches the speed registers. -/
theorem moveSpeedXY_cuvw (cfg : Config) (st : MachineState) (axis : List Char)
    (movetype : String) (speed : ℚ) :
    ((moveSpeedXY cfg st axis movetype speed).2).C = st.C
    ∧ ((moveSpeedXY cfg st axis movetype speed).2).U = st.U
    ∧ ((moveSpeedXY cfg st axis movetype speed).2).V = st.V
    ∧ ((moveSpeedXY cfg st axis movetype speed).2).W = st.W := by
  unfold moveSpeedXY
  dsimp only
  split_ifs <;> first | exact setReg_cuvw st _ _ | exact ⟨rfl, rfl, rfl, rfl⟩

/-- The speed-change section of `move` only touches the speed registers. -/
theorem moveSpeed_cuvw (cfg : Config) (st : MachineState) (c : Command)
    (axis : List Char) :
    ((moveSpeed cfg st c axis).2).C = st.C ∧ ((moveSpeed cfg st c axis).2).U = st.U
    ∧ ((moveSpeed cfg st c axis).2).V = st.V ∧ ((moveSpeed cfg st c axis).2).W = st.W := by
  unfold moveSpeed
  rcases c.getParam 'F' with _ | f
  · exact ⟨rfl, rfl, rfl, rfl⟩
  · dsimp only
    generalize (if c.name = "G1" ∨ c.name = "G01" then "MS" else "JS") = MT
    rcases h1 : moveSpeedZ cfg st axis MT f with ⟨zs, stZ⟩
    have e1 := moveSpeedZ_cuvw cfg st axis MT f
    rw [h1] at e1
    rcases h2 : moveSpeedXY cfg stZ axis MT f with ⟨xys, stXY⟩
    have e2 := moveSpeedXY_cuvw cfg stZ axis MT f
    rw [h2] at e2
    dsimp only at e1 e2
    split_ifs <;> dsimp only <;>
      exact ⟨e2.1.trans e1.1, e2.2.1.trans e1.2.1,
        e2.2.2.1.trans e1.2.2.1, e2.2.2.2.trans e1.2.2.2⟩

/-- `move` never writes the C/U/V/W entries. -/
theorem move_cuvw (cfg : Config) (st : MachineState) (c : Command) :
    ((move cfg st c).2).C = st.C ∧ ((move cfg st c).2).U = st.U
    ∧ ((move cfg st c).2).V = st.V ∧ ((move cfg st c).2).W = st.W := by
  unfold move
  split_ifs
  · exact ⟨rfl, rfl, rfl, rfl⟩
  · dsimp only
    rcases h1 : moveSpeed cfg st c (includedAxis cfg st c) with ⟨so, st1⟩
    have e1 := moveSpeed_cuvw cfg st c (includedAxis cfg st c)
    rw [h1] at e1
    dsimp only at e1
    rcases moveLineTxt cfg c (includedAxis cfg st c) with _ | l <;> exact e1

set_option maxHeartbeats 2000000 in
/-- No dispatch-table handler writes the C/U/V/W entries. -/
theorem handler_cuvw (name : String) (fn : Handler)
    (h : lookupHandler name = some fn) :
    ∀ cfg st c out st2, fn cfg st c = .ok (out, st2) →
      st2.C = st.C ∧ st2.U = st.U ∧ st2.V = st.V ∧ st2.W = st.W := by
  have hmove : ∀ cfg st c out st2, moveH cfg st c = .ok (out, st2) →
      st2.C = st.C ∧ st2.U = st.U ∧ st2.V = st.V ∧ st2.W = st.W := by
    intro cfg st c out st2 hok
    unfold moveH at hok
    injection hok with hok
    have h2 : st2 = (move cfg st c).2 := by rw [hok]
    rw [h2]
    exact move_cuvw cfg st c
  have harc : ∀ cfg st c out st2, arc cfg st c = .ok (out, st2) →
      st2.C = st.C ∧ st2.U = st.U ∧ st2.V = st.V ∧ st2.W = st.W := by
    intro cfg st c out st2 hok
    unfold arc at hok
    dsimp only at hok
    split at hok
    · cases hok
    split at hok
    · cases hok
    split at hok
    · cases hok
    split at hok
    · cases hok
    rw [handlerStateEq hok]
    exact ⟨rfl, rfl, rfl, rfl⟩
  have htool : ∀ cfg st c out st2, tool_change cfg st c = .ok (out, st2) →
      st2.C = st.C ∧ st2.U = st.U ∧ st2.V = st.V ∧ st2.W = st.W := by
    intro cfg st c out st2 hok
    unfold tool_change at hok
    dsimp only at hok
    split at hok
    · cases hok
    · split at hok
      · cases hok
      · rw [handlerStateEq hok]
        split_ifs <;> exact ⟨rfl, rfl, rfl, rfl⟩
  have hspindle : ∀ cfg st c out st2, spindle cfg st c = .ok (out, st2) →
      st2.C = st.C ∧ st2.U = st.U ∧ st2.V = st.V ∧ st2.W = st.W := by
    intro cfg st c out st2 hok
    unfold spindle at hok
    dsimp only at hok
    split at hok
    · cases hok
    rw [handlerStateEq hok]
    exact ⟨rfl, rfl, rfl, rfl⟩
  have hcoord : ∀ cfg st c out st2, coordinate_system cfg st c = .ok (out, st2) →
      st2.C = st.C ∧ st2.U = st.U ∧ st2.V = st.V ∧ st2.W = st.W := by
    intro cfg st c out st2 hok
    unfold coordinate_system at hok
    dsimp only at hok
    split_ifs at hok <;> (rw [handlerStateEq hok]; exact ⟨rfl, rfl, rfl, rfl⟩)
  have hrel : ∀ cfg st c out st2, relative_positions cfg st c = .ok (out, st2) →
      st2.C = st.C ∧ st2.U = st.U ∧ st2.V = st.V ∧ st2.W = st.W := by
    intro cfg st c out st2 hok
    unfold relative_positions at hok
    rw [handlerStateEq hok]
    exact ⟨rfl, rfl, rfl, rfl⟩
  have habs : ∀ cfg st c out st2, absolute_positions cfg st c = .ok (out, st2) →
      st2.C = st.C ∧ st2.U = st.U ∧ st2.V = st.V ∧ st2.W = st.W := by
    intro cfg st c out st2 hok
    unfold absolute_positions at hok
    rw [handlerStateEq hok]
    exact ⟨rfl, rfl, rfl, rfl⟩
  have hcom : ∀ cfg st c out st2, commentH cfg st c = .ok (out, st2) →
      st2.C = st.C ∧ st2.U = st.U ∧ st2.V = st.V ∧ st2.W = st.W := by
    intro cfg st c out st2 hok
    unfold commentH at hok
    rw [handlerStateEq hok]
    exact ⟨rfl, rfl, rfl, rfl⟩
  unfold lookupHandler at h
  by_cases e1 : name = "G0"
  · rw [if_pos e1] at h; injection h with h; subst h; exact hmove
  rw [if_neg e1] at h
  by_cases e2 : name = "G1"
  · rw [if_pos e2] at h; injection h with h; subst h; exact hmove
  rw [if_neg e2] at h
  by_cases e3 : name = "G2"
  · rw [if_pos e3] at h; injection h with h; subst h; exact harc
  rw [if_neg e3] at h
  by_cases e4 : name = "G3"
  · rw [if_pos e4] at h; injection h with h; subst h; exact harc
  rw [if_neg e4] at h
  by_cases e5 : name = "M6"
  · rw [if_pos e5] at h; injection h with h; subst h; exact htool
  rw [if_neg e5] at h
  by_cases e6 : name = "M3"
  · rw [if_pos e6] at h; injection h with h; subst h; exact hspindle
  rw [if_neg e6] at h
  by_cases e7 : name = "G00"
  · rw [if_pos e7] at h; injection h with h; subst h; exact hmove
  rw [if_neg e7] at h
  by_cases e8 : name = "G01"
  · rw [if_pos e8] at h; injection h with h; subst h; exact hmove
  rw [if_neg e8] at h
  by_cases e9 : name = "G02"
  · rw [if_pos e9] at h; injection h with h; subst h; exact harc
  rw [if_neg e9] at h
  by_cases e10 : name = "G03"
  · rw [if_pos e10] at h; injection h with h; subst h; exact harc
  rw [if_neg e10] at h
  by_cases e11 : name = "M06"
  · rw [if_pos e11] at h; injection h with h; subst h; exact htool
  rw [if_neg e11] at h
  by_cases e12 : name = "M03"
  · rw [if_pos e12] at h; injection h with h; subst h; exact hspindle
  rw [if_neg e12] at h
  by_cases e13 : name = "G91"
  · rw [if_pos e13] at h; injection h with h; subst h; exact hrel
  rw [if_neg e13] at h
  by_cases e14 : name = "G90"
  · rw [if_pos e14] at h; injection h with h; subst h; exact habs
  rw [if_neg e14] at h
  by_cases e15 : name = "G54"
  · rw [if_pos e15] at h; injection h with h; subst h; exact hcoord
  rw [if_neg e15] at h
  by_cases e16 : name = "comment"
  · rw [if_pos e16] at h; injection h with h; subst h; exact hcom
  rw [if_neg e16] at h
  exact Option.noConfusion h

/-- One dispatcher step preserves the C/U/V/W sentinels when the command
carries none of those parameters. -/
theorem processOne_cuvw (cfg : Config) (acc acc2 : RunAcc) (c : Command)
    (hc : c.getParam 'C' = none ∧ c.getParam 'U' = none
      ∧ c.getParam 'V' = none ∧ c.getParam 'W' = none)
    (h : processOne cfg acc c = .ok acc2)
    (hinit : cuvwAbsent acc.st) : cuvwAbsent acc2.st := by
  have hmem : ∀ kv ∈ c.parameters, kv.1 ∉ (['C', 'U', 'V', 'W'] : List Char) := by
    intro kv hkv
    simp only [List.mem_cons, List.not_mem_nil, or_false, not_or]
    exact ⟨lookup_none_mem hc.1 kv hkv, lookup_none_mem hc.2.1 kv hkv,
      lookup_none_mem hc.2.2.1 kv hkv, lookup_none_mem hc.2.2.2 kv hkv⟩
  unfold processOne at h
  dsimp only at h
  rcases hl : lookupHandler (dispatchName c) with _ | fn <;> rw [hl] at h
  · dsimp only at h
    split_ifs at h
    · rw [← Except.ok.inj h]; exact hinit
    · rw [← Except.ok.inj h]; exact hinit
  · dsimp only at h
    split_ifs at h
    · have h2 := Except.ok.inj h
      rw [← h2]
      exact hinit
    · unfold handleKnown at h
      rcases hok : fn cfg acc.st c with e | p <;> rw [hok] at h
      · cases h
      · have hacc2 := Except.ok.inj h
        rw [← hacc2]
        have hst := handler_cuvw _ fn hl cfg acc.st c p.1 p.2 (by rw [hok])
        have hup := updateParams_cuvw c.parameters p.2 hmem
        exact ⟨hup.1.trans (hst.1.trans hinit.1),
          hup.2.1.trans (hst.2.1.trans hinit.2.1),
          hup.2.2.1.trans (hst.2.2.1.trans hinit.2.2.1),
          hup.2.2.2.trans (hst.2.2.2.trans hinit.2.2.2)⟩

/-- C5, counterexample to the claim as stated: a handled rapid move that
carries a `C` parameter is rejected by the Move Emitter, yet the
dispatcher's post-handler parameter update still overwrites the `C`
sentinel with the numeric value 5. -/
theorem C5_counterexample :
    (parse_list_of_commands { } initState [cmdC5]).map (fun r => r.2.C)
      = .ok (some 5)
    ∧ some (5 : ℚ) ≠ none := by
  exact ⟨rfl, by simp⟩

/-- C5, amended: along any successfully handled command sequence in which
no command carries a C/U/V/W parameter, the Translation State entries for
C, U, V and W remain the "unsupported, absent" sentinel (a handled command
that does carry one overwrites it, as the counterexample shows). -/
theorem C5_cuvw_preserved (cfg : Config) (cmds : List Command) (acc res : RunAcc)
    (hcmds : ∀ c ∈ cmds, c.getParam 'C' = none ∧ c.getParam 'U' = none
      ∧ c.getParam 'V' = none ∧ c.getParam 'W' = none)
    (hrun : parse_list_go cfg acc cmds = .ok res)
    (hinit : cuvwAbsent acc.st) : cuvwAbsent res.st := by
  induction cmds generalizing acc with
  | nil =>
    unfold parse_list_go at hrun
    exact (Except.ok.inj hrun) ▸ hinit
  | cons c tl ih =>
    unfold parse_list_go at hrun
    rcases hstep : processOne cfg acc c with e | acc2 <;> rw [hstep] at hrun
    · simp at hrun
    · exact ih acc2 (fun d hd => hcmds d (by simp [hd])) hrun
        (processOne_cuvw cfg acc acc2 c (hcmds c (by simp)) hstep hinit)

/-- C5 witness: translating the plain move `X=10,Y=20,Z=30` from the
initial state leaves all four sentinels absent. -/
theorem C5_witness :
    parse_list_go { } { output := [], st := initState, last_gcode := "" } [cmdXYZ]
      = .ok { output := ["J3,10.000,20.000,30.000"], st := stPos,
              last_gcode := toGCode cmdXYZ }
    ∧ cuvwAbsent stPos := by
  constructor
  · rfl
  · exact C5_cuvw_preserved { } [cmdXYZ]
      { output := [], st := initState, last_gcode := "" }
      { output := ["J3,10.000,20.000,30.000"], st := stPos,
        last_gcode := toGCode cmdXYZ }
      (by
        intro c hc
        simp only [List.mem_singleton] at hc
        subst hc
        exact ⟨rfl, rfl, rfl, rfl⟩)
      rfl ⟨rfl, rfl, rfl, rfl⟩

/-- Every line produced by `comment` starts with the dialect's comment
character. -/
theorem comment_head (cfg : Config) (text : String) (kp force : Bool) :
    ∀ l ∈ comment cfg text kp force, l.data.head? = some '\'' := by
  intro l hl
  unfold comment at hl
  split_ifs at hl
  · rw [List.mem_singleton] at hl
    subst hl
    rfl
  · rw [List.mem_singleton] at hl
    subst hl
    rfl
  · exact absurd hl (List.not_mem_nil l)

/-- Every line of the speed-initialisation block is a comment line or the
`VS` line. -/
theorem setSpeedsLines_head (cfg : Config) (o : ToolController) :
    ∀ l ∈ setSpeedsLines cfg o,
      l.data.head? = some '\'' ∨ l.data.head? = some 'V' := by
  intro l hl
  unfold setSpeedsLines at hl
  simp only [List.mem_append] at hl
  rcases hl with ((((h | h) | h) | h) | h) | h
  · exact Or.inl (comment_head _ _ _ _ l h)
  · split_ifs at h
    · exact absurd h (List.not_mem_nil l)
    · exact Or.inl (comment_head _ _ _ _ l h)
  · split_ifs at h
    · exact absurd h (List.not_mem_nil l)
    · exact Or.inl (comment_head _ _ _ _ l h)
  · split_ifs at h
    · exact absurd h (List.not_mem_nil l)
    · exact Or.inl (comment_head _ _ _ _ l h)
  · split_ifs at h
    · exact absurd h (List.not_mem_nil l)
    · exact Or.inl (comment_head _ _ _ _ l h)
  · split_ifs at h
    · rw [List.mem_singleton] at h
      subst h
      exact Or.inr rfl
    · exact absurd h (List.not_mem_nil l)

/-- C6: the tool-change sequencing.  With the automatic toolchanger off,
the very first tool change (no active tool yet) emits the informational
comment and no `PAUSE`, and records the tool; every subsequent manual tool
change emits the operator prompt followed by `PAUSE`; with the automatic
toolchanger on, the `C9` macro line is emitted and no `PAUSE` ever is. -/
theorem C6_tool_change_sequencing (cfg : Config) (st : MachineState)
    (c : Command) (n : ℚ) (tc : ToolController)
    (hT : c.getParam 'T' = some n) (hTC : st.ToolController = some tc) :
    (cfg.toolchanger = false → st.Tool = none → cfg.comments = true →
      ∃ out st2, tool_change cfg st c = .ok (out, st2)
        ∧ ("\'" ++ ("(First change tool, should already be #"
            ++ toString (pyInt n) ++ ": " ++ tc.ToolLabel ++ ")")) ∈ out
        ∧ "PAUSE" ∉ out
        ∧ st2.Tool = some (pyInt n))
    ∧ (cfg.toolchanger = false → ∀ m, st.Tool = some m →
      ∃ out st2, tool_change cfg st c = .ok (out, st2)
        ∧ ("\'Change tool to #" ++ toString (pyInt n) ++ ": " ++ tc.ToolLabel) ∈ out
        ∧ "PAUSE" ∈ out
        ∧ st2.Tool = some (pyInt n))
    ∧ (cfg.toolchanger = true →
      ∃ out st2, tool_change cfg st c = .ok (out, st2)
        ∧ "C9 \'toolchanger" ∈ out
        ∧ "PAUSE" ∉ out
        ∧ st2.Tool = st.Tool) := by
  refine ⟨?_, ?_, ?_⟩
  · intro htch htool hcom
    have heq : tool_change cfg st c = .ok
        (comment cfg "(tool change)" true
          ++ ["&Tool=" ++ toString (pyInt n) ++ gcodecomment cfg c]
          ++ comment cfg ("(First change tool, should already be #"
              ++ toString (pyInt n) ++ ": " ++ tc.ToolLabel ++ ")") true
          ++ ["&ToolName=\"" ++ sanitizeToolName tc.ToolLabel ++ "\""]
          ++ setSpeedsLines cfg tc,
         { st with Tool := some (pyInt n) }) := by
      simp [tool_change, hT, hTC, set_speeds_before_tool_change, htch, htool]
    refine ⟨_, _, heq, ?_, ?_, rfl⟩
    · simp [comment, hcom, List.mem_append]
    · intro hmem
      simp only [List.mem_append] at hmem
      rcases hmem with ((((h | h) | h) | h) | h)
      · have h2 := comment_head cfg "(tool change)" true false _ h
        exact absurd h2 (by decide)
      · rw [List.mem_singleton] at h
        have h2 : (("&Tool=" ++ toString (pyInt n) ++ gcodecomment cfg c)).data.head?
            = some '&' := rfl
        rw [← h] at h2
        exact absurd h2 (by decide)
      · have h2 := comment_head cfg _ true false _ h
        exact absurd h2 (by decide)
      · rw [List.mem_singleton] at h
        have h2 : (("&ToolName=\"" ++ sanitizeToolName tc.ToolLabel ++ "\"")).data.head?
            = some '&' := rfl
        rw [← h] at h2
        exact absurd h2 (by decide)
      · rcases setSpeedsLines_head cfg tc _ h with h2 | h2 <;>
          exact absurd h2 (by decide)
  · intro htch m htool
    have heq : tool_change cfg st c = .ok
        (comment cfg "(tool change)" true
          ++ ["&Tool=" ++ toString (pyInt n) ++ gcodecomment cfg c]
          ++ ["\'Change tool to #" ++ toString (pyInt n) ++ ": " ++ tc.ToolLabel,
              "PAUSE"]
          ++ ["&ToolName=\"" ++ sanitizeToolName tc.ToolLabel ++ "\""]
          ++ setSpeedsLines cfg tc,
         { st with Tool := some (pyInt n) }) := by
      simp [tool_change, hT, hTC, set_speeds_before_tool_change, htch, htool]
    refine ⟨_, _, heq, ?_, ?_, rfl⟩
    · simp [List.mem_append]
    · simp [List.mem_append]
  · intro htch
    have heq : tool_change cfg st c = .ok
        (comment cfg "(tool change)" true
          ++ ["&Tool=" ++ toString (pyInt n) ++ gcodecomment cfg c]
          ++ ["C9 \'toolchanger"]
          ++ ["&ToolName=\"" ++ sanitizeToolName tc.ToolLabel ++ "\""]
          ++ setSpeedsLines cfg tc,
         st) := by
      simp [tool_change, hT, hTC, set_speeds_before_tool_change, htch]
    refine ⟨_, _, heq, ?_, ?_, rfl⟩
    · simp [List.mem_append]
    · intro hmem
      simp only [List.mem_append] at hmem
      rcases hmem with ((((h | h) | h) | h) | h)
      · have h2 := comment_head cfg "(tool change)" true false _ h
        exact absurd h2 (by decide)
      · rw [List.mem_singleton] at h
        have h2 : (("&Tool=" ++ toString (pyInt n) ++ gcodecomment cfg c)).data.head?
            = some '&' := rfl
        rw [← h] at h2
        exact absurd h2 (by decide)
      · rw [List.mem_singleton] at h
        have h2 : (("C9 \'toolchanger")).data.head? = some 'C' := rfl
        rw [← h] at h2
        exact absurd h2 (by decide)
      · rw [List.mem_singleton] at h
        have h2 : (("&ToolName=\"" ++ sanitizeToolName tc.ToolLabel ++ "\"")).data.head?
            = some '&' := rfl
        rw [← h] at h2
        exact absurd h2 (by decide)
      · rcases setSpeedsLines_head cfg tc _ h with h2 | h2 <;>
          exact absurd h2 (by decide)

/-- C6 witness: a first tool change (tool 2, manual mode, comments on)
emits the informational comment, no `PAUSE`, and records the tool. -/
theorem C6_witness :
    ∃ out st2, tool_change cfgComments stTC cmdT2 = .ok (out, st2)
      ∧ ("\'" ++ ("(First change tool, should already be #"
          ++ toString (pyInt 2) ++ ": " ++ tcW.ToolLabel ++ ")")) ∈ out
      ∧ "PAUSE" ∉ out
      ∧ st2.Tool = some (pyInt 2) :=
  (C6_tool_change_sequencing cfgComments stTC cmdT2 2 tcW rfl rfl).1 rfl rfl rfl

/-- A fold whose step fixes the accumulator on every list element returns
the initial accumulator. -/
theorem foldl_fixed {α β : Type} (f : β → α → β) (l : List α) (init : β)
    (hf : ∀ acc a, a ∈ l → f acc a = acc) :
    l.foldl f init = init := by
  induction l generalizing init with
  | nil => rfl
  | cons hd tl ih =>
    rw [List.foldl_cons, hf init hd (by simp)]
    exact ih init (fun acc a ha => hf acc a (by simp [ha]))

/-- C7: with axis-value elision on in absolute mode, a move each of whose
X/Y/Z/A/B parameters equals the tracked axis position (and which carries
no C/U/V/W parameter) produces no move line and no feed-rate line: its
output is empty and the state is untouched. -/
theorem C7_axis_elision_empty (cfg : Config) (st : MachineState) (c : Command)
    (hmodal : cfg.axis_modal = true) (habs : st.Absolute = true)
    (hC : c.getParam 'C' = none) (hU : c.getParam 'U' = none)
    (hV : c.getParam 'V' = none) (hW : c.getParam 'W' = none)
    (heq : ∀ p ∈ ALLOWED_AXIS, ∀ v, c.getParam p = some v → v = axisVal st p) :
    move cfg st c = ([], st) := by
  have hax : includedAxis cfg st c = [] := by
    unfold includedAxis
    refine foldl_fixed _ _ _ ?_
    intro acc p hp
    rcases hpv : c.getParam p with _ | v
    · simp [hpv]
    · have hv := heq p hp v hpv
      subst hv
      simp [hpv, hmodal, habs]
  have hcuvw : (['C', 'U', 'V', 'W'].any (fun p => (c.getParam p).isSome)) = false := by
    simp [hC, hU, hV, hW]
  have hms : moveSpeed cfg st c [] = ([], st) := by
    unfold moveSpeed
    rcases c.getParam 'F' with _ | f
    · rfl
    · rfl
  have hml : moveLineTxt cfg c [] = none := rfl
  unfold move
  rw [hcuvw]
  simp only [Bool.false_eq_true, if_false]
  rw [hax, hms, hml]

/-- C7 witness: repeating the current position `X=10,Y=20,Z=30` (with a
speed parameter) under axis-value elision in absolute mode emits nothing. -/
theorem C7_witness : move cfgAxisModal stPos cmdMoveStay = ([], stPos) := by
  refine C7_axis_elision_empty cfgAxisModal stPos cmdMoveStay rfl rfl rfl rfl rfl rfl ?_
  intro p hp v hv
  fin_cases hp <;>
    first
      | exact (Option.some.inj hv).symm
      | cases hv

/-- C8, counterexample to the claim as stated: with no tool controller
known, the speed block returns the empty text under the unit-test guard —
so it emits no diagnostic comments at all (despite comments being on) —
and without the guard it raises `AttributeError` instead of continuing. -/
theorem C8_counterexample :
    set_speeds_before_tool_change { comments := true, underUnittest := true } none
      = .ok []
    ∧ set_speeds_before_tool_change { comments := true } none
      = .error (.attributeError "NoneType object has no attribute Label") :=
  ⟨rfl, rfl⟩

/-- C8, amended: when a tool change is processed with no tool-controller
collaborator known, the speed-initialisation block contributes nothing at
all under the unit-test guard — no `VS` line (no output line starts with
`V`) and no diagnostic comments — and without the guard the tool change
fails with an `AttributeError` rather than continuing. -/
theorem C8_no_tool_controller (cfg : Config) (st : MachineState) (c : Command)
    (n : ℚ) (hT : c.getParam 'T' = some n) (hTC : st.ToolController = none) :
    (cfg.underUnittest = true →
      set_speeds_before_tool_change cfg st.ToolController = .ok []
      ∧ ∃ out st2, tool_change cfg st c = .ok (out, st2)
          ∧ ∀ l ∈ out, l.data.head? ≠ some 'V')
    ∧ (cfg.underUnittest = false →
      tool_change cfg st c
        = .error (.attributeError "NoneType object has no attribute Label")) := by
  constructor
  · intro huu
    constructor
    · rw [hTC]
      simp [set_speeds_before_tool_change, huu]
    · by_cases htch : cfg.toolchanger
      · have heq : tool_change cfg st c = .ok
            (comment cfg "(tool change)" true
              ++ ["&Tool=" ++ toString (pyInt n) ++ gcodecomment cfg c]
              ++ ["C9 \'toolchanger"]
              ++ ["&ToolName=\"" ++ sanitizeToolName (toString (pyInt n)) ++ "\""]
              ++ [],
             st) := by
          simp [tool_change, hT, hTC, set_speeds_before_tool_change, huu, htch]
        refine ⟨_, _, heq, ?_⟩
        intro l hl
        simp only [List.append_nil, List.mem_append, List.mem_singleton] at hl
        rcases hl with ((h | h) | h) | h
        · rw [comment_head cfg "(tool change)" true false l h]
          decide
        · subst h
          show (("&Tool=" ++ toString (pyInt n) ++ gcodecomment cfg c)).data.head? ≠ _
          rw [show (("&Tool=" ++ toString (pyInt n) ++ gcodecomment cfg c)).data.head?
              = some '&' from rfl]
          decide
        · subst h
          decide
        · subst h
          rw [show (("&ToolName=\"" ++ sanitizeToolName (toString (pyInt n)) ++ "\"")).data.head?
              = some '&' from rfl]
          decide
      · rcases hTool : st.Tool with _ | m
        · have heq : tool_change cfg st c = .ok
              (comment cfg "(tool change)" true
                ++ ["&Tool=" ++ toString (pyInt n) ++ gcodecomment cfg c]
                ++ comment cfg ("(First change tool, should already be #"
                    ++ toString (pyInt n) ++ ": " ++ toString (pyInt n) ++ ")") true
                ++ ["&ToolName=\"" ++ sanitizeToolName (toString (pyInt n)) ++ "\""]
                ++ [],
               { st with Tool := some (pyInt n) }) := by
            simp [tool_change, hT, hTC, set_speeds_before_tool_change, huu, htch, hTool]
          refine ⟨_, _, heq, ?_⟩
          intro l hl
          simp only [List.append_nil, List.mem_append, List.mem_singleton] at hl
          rcases hl with ((h | h) | h) | h
          · rw [comment_head cfg "(tool change)" true false l h]
            decide
          · subst h
            rw [show (("&Tool=" ++ toString (pyInt n) ++ gcodecomment cfg c)).data.head?
                = some '&' from rfl]
            decide
          · rw [comment_head cfg _ true false l h]
            decide
          · subst h
            rw [show (("&ToolName=\"" ++ sanitizeToolName (toString (pyInt n)) ++ "\"")).data.head?
                = some '&' from rfl]
            decide
        · have heq : tool_change cfg st c = .ok
              (comment cfg "(tool change)" true
                ++ ["&Tool=" ++ toString (pyInt n) ++ gcodecomment cfg c]
                ++ ["\'Change tool to #" ++ toString (pyInt n) ++ ": "
                      ++ toString (pyInt n), "PAUSE"]
                ++ ["&ToolName=\"" ++ sanitizeToolName (toString (pyInt n)) ++ "\""]
                ++ [],
               { st with Tool := some (pyInt n) }) := by
            simp [tool_change, hT, hTC, set_speeds_before_tool_change, huu, htch, hTool]
          refine ⟨_, _, heq, ?_⟩
          intro l hl
          simp only [List.append_nil, List.mem_append, List.mem_singleton,
            List.mem_cons, List.not_mem_nil, or_false] at hl
          rcases hl with ((h | h) | h) | h
          · rw [comment_head cfg "(tool change)" true false l h]
            decide
          · subst h
            rw [show (("&Tool=" ++ toString (pyInt n) ++ gcodecomment cfg c)).data.head?
                = some '&' from rfl]
            decide
          · rcases h with h | h
            · subst h
              rw [show (("\'Change tool to #" ++ toString (pyInt n) ++ ": "
                  ++ toString (pyInt n))).data.head? = some '\'' from rfl]
              decide
            · subst h
              decide
          · subst h
            rw [show (("&ToolName=\"" ++ sanitizeToolName (toString (pyInt n)) ++ "\"")).data.head?
                = some '&' from rfl]
            decide
  · intro huu
    simp [tool_change, hT, hTC, set_speeds_before_tool_change, huu]

/-- C8 witness: a tool change from the initial state (no controller known)
with the unit-test guard active succeeds with no `VS` line and an empty
speed block. -/
theorem C8_witness :
    set_speeds_before_tool_change { underUnittest := true }
      (initState.ToolController) = .ok []
    ∧ ∃ out st2, tool_change { underUnittest := true } initState cmdT2
        = .ok (out, st2)
        ∧ ∀ l ∈ out, l.data.head? ≠ some 'V' :=
  (C8_no_tool_controller { underUnittest := true } initState cmdT2 2 rfl rfl).1 rfl

/-- C9: if any input item does not expose a `Path`, the whole export run
aborts up front with empty output and no exception. -/
theorem C9_missing_path_aborts (cfg : Config) (objs : List PObj)
    (h : ∃ o ∈ objs, pHasPath o = false) :
    exportRun cfg objs = .ok "" := by
  obtain ⟨o, ho, hp⟩ := h
  unfold exportRun
  rw [if_pos]
  exact List.any_eq_true.mpr ⟨o, ho, by simp [hp]⟩

/-- C9 witness: an export over a single item without a `Path` attribute
returns the empty text. -/
theorem C9_witness : exportRun { } [objNoPath] = .ok "" :=
  C9_missing_path_aborts { } [objNoPath] ⟨objNoPath, by simp, rfl⟩

/-- C10: the second (`VertFeed`) slot of the `VS` line is populated if and
only if the controller's `HorizFeed` is nonzero — the source tests
`HorizFeed` a second time instead of `VertFeed` — and with a zero
`HorizFeed` the `(no VertFeed)` diagnostic comment is emitted (when
comments are on) even when `VertFeed` itself is nonzero. -/
theorem C10_vertfeed_gated (cfg : Config) (o : ToolController) :
    (speedSlots cfg o)[1]?
      = some (if o.HorizFeed = 0 then ""
              else formatFixed 4 (getValue cfg o.VertFeed))
    ∧ (o.HorizFeed = 0 → cfg.comments = true →
      ∃ out, set_speeds_before_tool_change cfg (some o) = .ok out
        ∧ "\'(no VertFeed)" ∈ out) := by
  constructor
  · by_cases h : o.HorizFeed = 0 <;> simp [speedSlots, h]
  · intro h hcom
    refine ⟨_, rfl, ?_⟩
    simp [setSpeedsLines, comment, h, hcom, List.mem_append]

/-- C10 witness: a controller with `HorizFeed = 0` but `VertFeed = 5`
leaves the vertical-feed slot blank and gets the `(no VertFeed)`
diagnostic. -/
theorem C10_witness :
    ∃ out, set_speeds_before_tool_change cfgComments (some tcZeroHF) = .ok out
      ∧ "\'(no VertFeed)" ∈ out :=
  (C10_vertfeed_gated cfgComments tcZeroHF).2 rfl rfl

end OpenSBP
